import Mathlib

/-!
Verification development for eduMFA core slices:
mobile-OTP time-window verification (`edumfa/lib/tokens/mOTP.py`),
the SMS challenge-response token (`edumfa/lib/tokens/smstoken.py`),
the LUKS machine application (`edumfa/lib/applications/luks.py`),
and the federation event handler (`edumfa/lib/eventhandler/federationhandler.py`).
Python functions are shallowly embedded as Lean definitions; external I/O
(the delivery channel, the HTTP requestor, the database) is abstracted as
explicit parameters or result values.
-/

namespace EduMFA

/-! ### mOTP: `mTimeOtp.checkOtp` (`edumfa/lib/tokens/mOTP.py`)

`calcOtp` truncates an MD5 digest of `f"{counter:d}{key}{pin}"` (the digest
comes from Python's `hashlib`, outside this repository); the embedding
abstracts it as a function `calcOtp : Int -> String` from the slice counter
to the candidate OTP string, for the fixed key and pin of one call.
`safe_compare` (from `edumfa.lib.crypto`, not under `src/`) is a
constant-time string comparison; it is embedded as string equality. -/

/-- Embedding of the scan loop `for i in range(otime - window, otime + window)`:
starting at slice `i`, try `fuel` consecutive slices; return the first slice
whose candidate OTP equals `anOtpVal`, else `-1`. -/
def scanOtp (calcOtp : Int → String) (anOtpVal : String) : Int → Nat → Int
  | _, 0 => -1
  | i, Nat.succ n => if anOtpVal == calcOtp i then i else scanOtp calcOtp anOtpVal (i + 1) n

/-- Embedding of `mTimeOtp.checkOtp` (`mOTP.py` lines 80-134) for a resolved
base time slice `otime` (the source uses `initTime` when nonzero, else
`time.time() // 10`). The source doubles the window (`window = window * 2`)
and scans `range(otime - window, otime + window)`, i.e. the `4 * window`
slices from `otime - 2 * window` up to `otime + 2 * window - 1`; afterwards a
matched slice `res <= oldtime` is reset to `-1` (replay watermark). -/
def checkOtp (calcOtp : Int → String) (anOtpVal : String) (window : Nat)
    (otime oldtime : Int) : Int :=
  let w : Int := (window : Int) * 2
  let res := scanOtp calcOtp anOtpVal (otime - w) (window * 4)
  if res ≤ oldtime then -1 else res

example : checkOtp (fun i => if i = 98 then "111111" else "000000") "111111" 1 100 0 = 98 := by
  decide

example : checkOtp (fun i => if i = 103 then "111111" else "000000") "111111" 1 100 0 = -1 := by
  decide

example : checkOtp (fun i => if i = 97 then "111111" else "000000") "111111" 1 100 97 = -1 := by
  decide

/-! ### SMS token: `SmsTokenClass` (`edumfa/lib/tokens/smstoken.py`) -/

/-- Modelled from the spec: `safe_compare` (from `edumfa.lib.crypto`, not under
`src/`) performs a constant-time comparison of the stored challenge data
(which may be absent) with the submitted OTP; embedded as equality of the
optional stored value with the submitted string. -/
def safeCompareData (data : Option String) (anOtpVal : String) : Bool :=
  data == some anOtpVal

/-- Embedding of `SmsTokenClass.check_otp` (`smstoken.py` lines 380-411).
`HotpTokenClass.check_otp` is code of this repository not under `src/`; it is
abstracted as the function `hotp` from the passed counter to its returned
result (negative when not found).  `concurrent` is the configuration flag
`sms.concurrent_challenges`; `data` is `options["data"]`, the challenge's
stored precomputed OTP.  The auto-SMS / post-check sends that follow do not
touch the returned value. -/
def sms_check_otp (hotp : Int → Int) (counter : Int) (concurrent : Bool)
    (data : Option String) (anOtpVal : String) : Int :=
  let ret := hotp counter
  if ret < 0 ∧ concurrent = true ∧ safeCompareData data anOtpVal = true then 1 else ret

/-- Outcome of one `SmsTokenClass.create_challenge` call: whether
`db_challenge.save()` was reached, and either a propagated exception message
(`Except.error`) or the returned `(success, return_message)` pair. -/
structure CreateChallengeOutcome where
  saved : Bool
  result : Except String (Bool × String)
  deriving Repr

/-- The literal failure message built in the `except` branch of
`create_challenge`. -/
def smsFailInfo : String := "The PIN was correct, but the SMS could not be sent!"

/-- Embedding of `SmsTokenClass.create_challenge` (`smstoken.py` lines
312-376).  `send` abstracts `_send_sms` as the delivery channel's behaviour:
`Except.error` when the channel raises, `Except.ok s` when it returns with
success flag `s`.  `isEnrollment` is `options.get("session") ==
CHALLENGE_SESSION.ENROLLMENT`, `exceptionOpt` is the truthiness of
`options.get("exception")`, and `challengeText` the policy-resolved challenge
message.  In the source the `try` block sends the SMS first and only then
constructs and saves the `Challenge` row, so a raising send skips the save;
the `except` branch replaces the message and re-raises only when
`exceptionOpt` is set. -/
def create_challenge (isActive isEnrollment : Bool) (send : Except String Bool)
    (exceptionOpt : Bool) (challengeText : String) : CreateChallengeOutcome :=
  if isActive then
    if isEnrollment then
      { saved := true, result := Except.ok (false, challengeText) }
    else
      match send with
      | Except.ok s => { saved := true, result := Except.ok (s, challengeText) }
      | Except.error _ =>
        if exceptionOpt then
          { saved := false, result := Except.error smsFailInfo }
        else
          { saved := false, result := Except.ok (false, smsFailInfo) }
  else
    { saved := false, result := Except.ok (false, challengeText) }

/-! ### Message rendering in `SmsTokenClass._send_sms` (`smstoken.py` lines 414-445)

The source first runs `message.replace("<otp>", otp)` and
`message.replace("<serial>", serial)`, then `message.format(otp=otp, **tags)`
with the tag dictionary built by `create_tag_dict`.  Python's `str.replace`
and `str.format` are embedded below on character lists; the formatter models
the subset of the format mini-language the templates use (`{name}`,
`{name[key]}`, doubled braces as literals), with `Option` as the raising
(`KeyError`/`ValueError`) effect. -/

/-- The opening brace character, `Char.ofNat 123`. -/
def braceOpen : Char := Char.ofNat 123

/-- The closing brace character, `Char.ofNat 125`. -/
def braceClose : Char := Char.ofNat 125

/-- Whether `pat` is an initial segment of `s`. -/
def startsWithList (pat s : List Char) : Bool :=
  match pat, s with
  | [], _ => true
  | _ :: _, [] => false
  | a :: as, b :: bs => a == b && startsWithList as bs

/-- Fuel-indexed embedding of Python `str.replace`: scan left to right,
replacing each non-overlapping occurrence of `pat` by `rep`.  The fuel is set
to the input length by `pyReplace`, which makes it inexhaustible. -/
def pyReplaceAux (pat rep : List Char) : Nat → List Char → List Char
  | _, [] => []
  | 0, s => s
  | fuel + 1, c :: rest =>
    if startsWithList pat (c :: rest) ∧ pat ≠ [] then
      rep ++ pyReplaceAux pat rep fuel (List.drop (pat.length - 1) rest)
    else
      c :: pyReplaceAux pat rep fuel rest

/-- Embedding of Python `s.replace(pat, rep)` for nonempty `pat`. -/
def pyReplace (s pat rep : String) : String :=
  String.mk (pyReplaceAux pat.data rep.data s.data.length s.data)

/-- Fuel-indexed embedding of Python `str.format` field substitution.  The
`field` argument is `none` in literal mode and `some acc` while scanning a
replacement field, with `acc` holding the reversed field characters.  A
lookup miss, an unterminated or stray brace, or fuel exhaustion yields `none`
(the raising outcome). -/
def pyFormatAux (lookup : String → Option String) :
    Nat → Option (List Char) → List Char → Option (List Char)
  | _, none, [] => some []
  | _, some _, [] => none
  | 0, _, _ :: _ => none
  | fuel + 1, none, c :: rest =>
    if c == braceOpen then
      match rest with
      | [] => none
      | d :: rest2 =>
        if d == braceOpen then
          (pyFormatAux lookup fuel none rest2).map (fun t => braceOpen :: t)
        else
          pyFormatAux lookup fuel (some []) rest
    else if c == braceClose then
      match rest with
      | [] => none
      | d :: rest2 =>
        if d == braceClose then
          (pyFormatAux lookup fuel none rest2).map (fun t => braceClose :: t)
        else
          none
    else
      (pyFormatAux lookup fuel none rest).map (fun t => c :: t)
  | fuel + 1, some acc, c :: rest =>
    if c == braceClose then
      match lookup (String.mk acc.reverse) with
      | some v => (pyFormatAux lookup fuel none rest).map (fun t => v.data ++ t)
      | none => none
    else if c == braceOpen then
      none
    else
      pyFormatAux lookup fuel (some (c :: acc)) rest

/-- Embedding of Python `s.format(**tags)` under the field resolver
`lookup`: `none` when formatting raises. -/
def pyFormat (lookup : String → Option String) (s : String) : Option String :=
  (pyFormatAux lookup s.data.length none s.data).map String.mk

/-- Modelled from the spec: the named tags available to `str.format` in
`_send_sms` — `otp` is passed explicitly, and `create_tag_dict` (in
`edumfa.lib.utils`, not under `src/`) supplies `serial`, the `recipient`
dictionary with `givenname` and `surname`, and `challenge`.  Unknown fields
resolve to `none` (Python raises `KeyError`). -/
def tagLookup (otp serial givenname surname challenge : String) :
    String → Option String := fun field =>
  if field = "otp" then some otp
  else if field = "serial" then some serial
  else if field = "recipient[givenname]" then some givenname
  else if field = "recipient[surname]" then some surname
  else if field = "challenge" then some challenge
  else none

/-- Embedding of the message-rendering steps of `SmsTokenClass._send_sms`:
legacy `<otp>` and `<serial>` substitution first, then named-tag
formatting. -/
def renderMessage (template otp serial givenname surname challenge : String) :
    Option String :=
  let m := pyReplace template "<otp>" otp
  let m := pyReplace m "<serial>" serial
  pyFormat (tagLookup otp serial givenname surname challenge) m

/-! ### LUKS machine application (`edumfa/lib/applications/luks.py`) -/

/-- Embedding of Python `str.lower()` (ASCII case folding, which covers the
token-type strings compared here). -/
def lowerString (s : String) : String := String.mk (s.data.map Char.toLower)

/-- Embedding of Python `str.startswith(pat)`. -/
def pyStartsWith (s pat : String) : Bool := startsWithList pat.data s.data

/-- The dictionary returned by `MachineApplication.get_authentication_item`:
each key is present (`some`) or absent (`none`). -/
structure AuthItem where
  challenge : Option String
  response : Option String
  deriving Repr, DecidableEq

/-- Embedding of the LUKS `MachineApplication.get_authentication_item`
(`luks.py` lines 44-82).  `randomChallengeHex` abstracts
`hexlify_and_unicode(geturandom(32))`, and `toks` abstracts
`get_tokens(serial=serial, active=True)` as the list of matching tokens,
each one as its `get_otp(challenge=..., do_truncation=False)` OTP component.
For an unsupported type/serial combination the function only logs and
returns the empty dictionary. -/
def get_authentication_item (token_type serial : String) (challenge : Option String)
    (randomChallengeHex : String) (toks : List (String → String)) : AuthItem :=
  if lowerString token_type == "totp" && pyStartsWith serial "UBOM" then
    let challenge_hex := match challenge with
      | none => randomChallengeHex
      | some c => c
    match toks with
    | [t] => { challenge := some challenge_hex, response := some (t challenge_hex) }
    | _ => { challenge := some challenge_hex, response := none }
  else
    { challenge := none, response := none }

/-! ### Federation event handler (`edumfa/lib/eventhandler/federationhandler.py`) -/

/-- The outbound relay request assembled by `FederationEventHandler.do`:
`params` is the query-parameter payload, `data` the body payload, as passed
to `requests.get` / `requests.post` / `requests.delete`. -/
structure OutboundRequest (δ : Type) where
  url : String
  params : Option δ
  data : Option δ
  headers : List (String × String)
  verify : Bool
  deriving Repr

/-- Embedding of Python `str.upper()` (ASCII case folding, which covers the
HTTP method strings compared here). -/
def upperString (s : String) : String := String.mk (s.data.map Char.toUpper)

/-- Embedding of the forward action of `FederationEventHandler.do`
(`federationhandler.py` lines 108-180), after the payload mutations (client
IP, realm, resolver) have produced `data` and the authorization-header logic
has produced `headers`.  `relay` abstracts the `requests` call together with
the conversion of the remote response into a local response object (the
`detail.origin` injection included).  The function returns the relay request
made (if any) and the final `options["response"]`: for GET the payload goes
into `params` with an empty body, for POST/DELETE into the body, and for any
other method no request is made and the original response is returned
unchanged. -/
def federation_do {δ ρ : Type} (method : String) (url : String) (data : δ)
    (headers : List (String × String)) (tls : Bool) (origResponse : ρ)
    (relay : OutboundRequest δ → ρ) : Option (OutboundRequest δ) × ρ :=
  if upperString method == "GET" then
    let req : OutboundRequest δ :=
      { url := url, params := some data, data := none, headers := headers, verify := tls }
    (some req, relay req)
  else if upperString method == "POST" then
    let req : OutboundRequest δ :=
      { url := url, params := none, data := some data, headers := headers, verify := tls }
    (some req, relay req)
  else if upperString method == "DELETE" then
    let req : OutboundRequest δ :=
      { url := url, params := none, data := some data, headers := headers, verify := tls }
    (some req, relay req)
  else
    (none, origResponse)

/-- Unfolding equation for `checkOtp`. -/
theorem checkOtp_def (calcOtp : Int → String) (anOtpVal : String) (window : Nat)
    (otime oldtime : Int) :
    checkOtp calcOtp anOtpVal window otime oldtime =
      if scanOtp calcOtp anOtpVal (otime - (window : Int) * 2) (window * 4) ≤ oldtime then -1
      else scanOtp calcOtp anOtpVal (otime - (window : Int) * 2) (window * 4) := rfl

/-- When the submitted value matches the candidate OTP of exactly one slice `s`,
the scan starting at `i` with `n` slices of fuel returns `s` when `s` lies in
`[i, i + n)` and `-1` otherwise. -/
theorem scanOtp_unique (calcOtp : Int → String) (anOtpVal : String) (s : Int)
    (huniq : ∀ i, anOtpVal = calcOtp i ↔ i = s) :
    ∀ (n : Nat) (i : Int),
      scanOtp calcOtp anOtpVal i n = if i ≤ s ∧ s < i + (n : Int) then s else -1 := by
  intro n
  induction n with
  | zero =>
    intro i
    simp only [scanOtp]
    rw [if_neg]
    rintro ⟨h1, h2⟩
    omega
  | succ n ih =>
    intro i
    simp only [scanOtp]
    by_cases h : i = s
    · subst h
      rw [if_pos, if_pos]
      · exact ⟨le_refl i, by omega⟩
      · exact beq_iff_eq.mpr ((huniq i).mpr rfl)
    · rw [if_neg, ih (i + 1)]
      · by_cases hin : i + 1 ≤ s ∧ s < i + 1 + (n : Int)
        · rw [if_pos hin, if_pos]
          push_cast
          omega
        · rw [if_neg hin, if_neg]
          push_cast at hin ⊢
          omega
      · intro hbeq
        exact h ((huniq i).mp (beq_iff_eq.mp hbeq))

/-- Under a unique matching slice `s` lying strictly above the replay
watermark, `checkOtp` with window parameter `w` returns `s` exactly when `s`
lies in the scanned half-open range `[otime - 2 * w, otime + 2 * w)`, and `-1`
otherwise. -/
theorem checkOtp_unique_characterisation (calcOtp : Int → String) (anOtpVal : String)
    (w : Nat) (otime oldtime s : Int)
    (huniq : ∀ i, anOtpVal = calcOtp i ↔ i = s) (hwm : oldtime < s) :
    checkOtp calcOtp anOtpVal w otime oldtime =
      if otime - 2 * (w : Int) ≤ s ∧ s < otime + 2 * (w : Int) then s else -1 := by
  show (if scanOtp calcOtp anOtpVal (otime - (w : Int) * 2) (w * 4) ≤ oldtime then -1
        else scanOtp calcOtp anOtpVal (otime - (w : Int) * 2) (w * 4)) = _
  rw [scanOtp_unique calcOtp anOtpVal s huniq (w * 4) (otime - (w : Int) * 2)]
  push_cast
  split_ifs <;> omega

/-- C2 (counterexample): with window parameter `1`, base slice `100` and a
replay watermark of `0`, an OTP whose only matching slice `98` lies
`window + 1 = 2` slices below the base slice is still found and its slice is
returned, where the claim requires `-1`. -/
theorem checkOtp_c2_counterexample :
    checkOtp (fun i => if i = 98 then "111111" else "000000") "111111" 1 100 0 = 98 ∧
    (98 : Int) ≠ -1 := by
  constructor
  · decide
  · decide

/-- C2 (amended): `checkOtp` with window parameter `w` scans the slices of
the half-open range `[otime - 2 * w, otime + 2 * w)` — the source doubles the
window before scanning — so a unique matching slice above the replay
watermark is returned exactly when it lies in that range (in particular a
slice exactly `w` away in either direction is found for `w >= 1`, but so is a
slice `w + 1` away whenever it still lies in the doubled range; only slices
below `otime - 2 * w` or at or above `otime + 2 * w` yield `-1`). -/
theorem checkOtp_c2_scan_range (calcOtp : Int → String) (anOtpVal : String)
    (w : Nat) (otime oldtime s : Int)
    (huniq : ∀ i, anOtpVal = calcOtp i ↔ i = s) (hwm : oldtime < s) :
    checkOtp calcOtp anOtpVal w otime oldtime =
      if otime - 2 * (w : Int) ≤ s ∧ s < otime + 2 * (w : Int) then s else -1 :=
  checkOtp_unique_characterisation calcOtp anOtpVal w otime oldtime s huniq hwm

/-- Witness for C2's amended theorem at window `3`, base slice `100`, unique
matching slice `98` and watermark `0`. -/
theorem checkOtp_c2_scan_range_witness :
    checkOtp (fun i => if i = 98 then "111111" else "000000") "111111" 3 100 0 =
      if (100 : Int) - 2 * 3 ≤ 98 ∧ (98 : Int) < 100 + 2 * 3 then 98 else -1 := by
  apply checkOtp_c2_scan_range
  · intro i
    show "111111" = (if i = (98 : Int) then "111111" else "000000") ↔ i = 98
    by_cases h : i = (98 : Int)
    · subst h
      rw [if_pos rfl]
      exact ⟨fun _ => rfl, fun _ => rfl⟩
    · rw [if_neg h]
      constructor
      · intro hc
        exact absurd hc (by decide)
      · intro hc
        exact absurd hc h
  · decide

/-- C3: the replay watermark. If the unique digest-matching slice `s` is at
or below `oldtime`, `checkOtp` returns `-1` even though the raw digest
matches; and whenever `checkOtp` returns something other than `-1`, the
returned slice is strictly greater than `oldtime`. -/
theorem checkOtp_c3_replay_watermark (calcOtp : Int → String) (anOtpVal : String)
    (w : Nat) (otime oldtime s : Int)
    (huniq : ∀ i, anOtpVal = calcOtp i ↔ i = s) :
    (s ≤ oldtime → checkOtp calcOtp anOtpVal w otime oldtime = -1) ∧
    (checkOtp calcOtp anOtpVal w otime oldtime ≠ -1 →
      oldtime < checkOtp calcOtp anOtpVal w otime oldtime) := by
  constructor
  · intro hle
    rw [checkOtp_def, scanOtp_unique calcOtp anOtpVal s huniq]
    push_cast
    split_ifs <;> omega
  · intro hne
    rw [checkOtp_def] at hne ⊢
    split_ifs at hne ⊢ with h
    · exact absurd rfl hne
    · omega

/-- Witness for C3 at window `1`, base slice `100`, unique matching slice
`97`, watermark `97`: the match is at the watermark and is rejected. -/
theorem checkOtp_c3_replay_watermark_witness :
    checkOtp (fun i => if i = 97 then "111111" else "000000") "111111" 1 100 97 = -1 := by
  apply (checkOtp_c3_replay_watermark (fun i => if i = 97 then "111111" else "000000")
    "111111" 1 100 97 97 ?_).1 (by decide)
  intro i
  show "111111" = (if i = (97 : Int) then "111111" else "000000") ↔ i = 97
  by_cases h : i = (97 : Int)
  · subst h
    rw [if_pos rfl]
    exact ⟨fun _ => rfl, fun _ => rfl⟩
  · rw [if_neg h]
    constructor
    · intro hc
      exact absurd hc (by decide)
    · intro hc
      exact absurd hc h

/-- C4: when the underlying HOTP check comes back negative, the
`sms.concurrent_challenges` flag is enabled and the stored challenge data
equals the submitted OTP under the constant-time comparison,
`SmsTokenClass.check_otp` returns a success value (a result `>= 0`). -/
theorem sms_check_otp_c4_concurrent_fallback (hotp : Int → Int) (counter : Int)
    (data : Option String) (anOtpVal : String)
    (hneg : hotp counter < 0) (hdata : data = some anOtpVal) :
    0 ≤ sms_check_otp hotp counter true data anOtpVal := by
  unfold sms_check_otp
  rw [if_pos]
  · decide
  · refine ⟨hneg, rfl, ?_⟩
    rw [hdata]
    simp [safeCompareData]

/-- Witness for C4: HOTP misses (`-1`), concurrent challenges on, stored data
`"123456"` equals the submitted OTP. -/
theorem sms_check_otp_c4_concurrent_fallback_witness :
    0 ≤ sms_check_otp (fun _ => -1) 0 true (some "123456") "123456" :=
  sms_check_otp_c4_concurrent_fallback (fun _ => -1) 0 (some "123456") "123456"
    (by decide) rfl

/-- C10: when the concurrent-challenge fallback fires, the value returned by
`SmsTokenClass.check_otp` is the constant `1`, whatever counter was passed in
and whatever negative result the HOTP check produced — it is not the counter
at which the OTP was generated. -/
theorem sms_check_otp_c10_fallback_constant_one (hotp : Int → Int) (counter : Int)
    (data : Option String) (anOtpVal : String)
    (hneg : hotp counter < 0) (hdata : data = some anOtpVal) :
    sms_check_otp hotp counter true data anOtpVal = 1 := by
  unfold sms_check_otp
  rw [if_pos]
  refine ⟨hneg, rfl, ?_⟩
  rw [hdata]
  simp [safeCompareData]

/-- Witness for C10: counter `42`, HOTP result `-5`, stored data `"654321"`
equal to the submitted OTP: the returned value is `1`, not `42`. -/
theorem sms_check_otp_c10_fallback_constant_one_witness :
    sms_check_otp (fun _ => -5) 42 true (some "654321") "654321" = 1 :=
  sms_check_otp_c10_fallback_constant_one (fun _ => -5) 42 (some "654321") "654321"
    (by decide) rfl

/-- C1 (counterexample): an active token, a non-enrollment session and a
delivery channel that raises, with the `exception` option unset: the
`Challenge` row is NOT saved (`saved = false`), because in the source the
send precedes the construction and saving of the `Challenge` row inside the
same `try` block; only the soft failure message is returned. -/
theorem create_challenge_c1_counterexample :
    (create_challenge true false (Except.error "gateway unreachable") false
      "Enter the OTP from the SMS:").saved = false ∧
    (create_challenge true false (Except.error "gateway unreachable") false
      "Enter the OTP from the SMS:").result = Except.ok (false, smsFailInfo) :=
  ⟨rfl, rfl⟩

/-- C1 (amended): for every raising delivery channel, `create_challenge`
(active token, non-enrollment session, `exception` option unset) does not
persist the challenge row — the save is skipped because sending precedes
persistence — and surfaces the failure only as the non-fatal message
"The PIN was correct, but the SMS could not be sent!" with `success =
false`; no exception propagates. -/
theorem create_challenge_c1_delivery_raise (err challengeText : String) :
    create_challenge true false (Except.error err) false challengeText =
      { saved := false, result := Except.ok (false, smsFailInfo) } := rfl

/-- C5: the caller selects the failure mode per call via the `exception`
option: with the option truthy a raising delivery channel makes
`create_challenge` propagate an exception, and with it unset the same failure
is returned softly as `success = false` with the failure message. -/
theorem create_challenge_c5_exception_mode (err challengeText : String) :
    create_challenge true false (Except.error err) true challengeText =
      { saved := false, result := Except.error smsFailInfo } ∧
    create_challenge true false (Except.error err) false challengeText =
      { saved := false, result := Except.ok (false, smsFailInfo) } :=
  ⟨rfl, rfl⟩

/-- C6: in the forward action, method `"GET"` sends the payload as query
parameters (`params`) with an empty body, and every method outside
GET/POST/DELETE (for example `"PATCH"`) makes no relay request and leaves
the original response in `options` untouched. -/
theorem federation_do_c6_get_params_other_noop {δ ρ : Type} (url : String) (data : δ)
    (headers : List (String × String)) (tls : Bool) (origResponse : ρ)
    (relay : OutboundRequest δ → ρ) :
    (federation_do "GET" url data headers tls origResponse relay).1 =
      some { url := url, params := some data, data := none,
             headers := headers, verify := tls } ∧
    ∀ method : String, upperString method ≠ "GET" → upperString method ≠ "POST" →
      upperString method ≠ "DELETE" →
      federation_do method url data headers tls origResponse relay =
        (none, origResponse) := by
  constructor
  · rfl
  · intro method h1 h2 h3
    unfold federation_do
    rw [if_neg (by simp [h1]), if_neg (by simp [h2]), if_neg (by simp [h3])]

/-- Witness for C6 at method `"PATCH"`: the GET request carries the payload
as `params` with an empty body, and PATCH is a no-op returning the original
response. -/
theorem federation_do_c6_get_params_other_noop_witness :
    (federation_do "GET" "https://remote/validate/check" (7 : Nat) [] true
      (0 : Nat) (fun _ => 1)).1 =
      some { url := "https://remote/validate/check", params := some 7, data := none,
             headers := [], verify := true } ∧
    federation_do "PATCH" "https://remote/validate/check" (7 : Nat) [] true
      (0 : Nat) (fun _ => 1) = (none, 0) :=
  ⟨(federation_do_c6_get_params_other_noop "https://remote/validate/check" 7 [] true
      0 (fun _ => 1)).1,
   (federation_do_c6_get_params_other_noop "https://remote/validate/check" 7 [] true
      0 (fun _ => 1)).2 "PATCH" (by decide) (by decide) (by decide)⟩

/-- C7: `_send_sms` message rendering substitutes the legacy `<otp>`
placeholder first and then the named `recipient[givenname]` tag, and does not
raise when the recipient's given name is the empty string — the template of
the claim renders to "Your code is 123456, hi ". -/
theorem renderMessage_c7_legacy_and_named (serial surname challengeText : String) :
    renderMessage "Your code is <otp>, hi \x7brecipient[givenname]\x7d"
      "123456" serial "" surname challengeText = some "Your code is 123456, hi " := rfl

/-- C8: the LUKS `get_authentication_item` returns the empty dictionary (and,
being a total function, raises nothing) whenever the token type is not
"totp" case-insensitively or the serial does not start with "UBOM". -/
theorem luks_c8_unsupported_empty (token_type serial : String)
    (challenge : Option String) (randomChallengeHex : String)
    (toks : List (String → String))
    (h : (lowerString token_type == "totp") = false ∨
         pyStartsWith serial "UBOM" = false) :
    get_authentication_item token_type serial challenge randomChallengeHex toks =
      { challenge := none, response := none } := by
  unfold get_authentication_item
  rcases h with h | h <;> simp [h]

/-- Witness for C8: token type "hotp" with a "UBOM" serial yields the empty
dictionary. -/
theorem luks_c8_unsupported_empty_witness :
    get_authentication_item "hotp" "UBOM1" none "ab" [] =
      { challenge := none, response := none } :=
  luks_c8_unsupported_empty "hotp" "UBOM1" none "ab" [] (Or.inl (by decide))

/-- C9: for a supported type/serial combination whose active-token lookup
does not return exactly one token, the LUKS `get_authentication_item` result
carries the "challenge" key but no "response" key. -/
theorem luks_c9_challenge_without_response (token_type serial : String)
    (challenge : Option String) (randomChallengeHex : String)
    (toks : List (String → String))
    (htt : (lowerString token_type == "totp") = true)
    (hs : pyStartsWith serial "UBOM" = true)
    (hlen : toks.length ≠ 1) :
    (get_authentication_item token_type serial challenge randomChallengeHex
      toks).challenge.isSome = true ∧
    (get_authentication_item token_type serial challenge randomChallengeHex
      toks).response = none := by
  unfold get_authentication_item
  rw [if_pos (by rw [htt, hs]; rfl)]
  rcases toks with _ | ⟨t, _ | ⟨u, rest⟩⟩
  · exact ⟨rfl, rfl⟩
  · exact absurd rfl hlen
  · exact ⟨rfl, rfl⟩

/-- Witness for C9: type "TOTP", serial "UBOM9" and an empty active-token
list yield a challenge but no response. -/
theorem luks_c9_challenge_without_response_witness :
    (get_authentication_item "TOTP" "UBOM9" none "ff" []).challenge.isSome = true ∧
    (get_authentication_item "TOTP" "UBOM9" none "ff" []).response = none :=
  luks_c9_challenge_without_response "TOTP" "UBOM9" none "ff" []
    (by decide) (by decide) (by decide)

end EduMFA
